import Mathlib

/-!
Verification of the kubeadm-python-cluster configuration files.

The repository consists of three declarative Python configuration scripts:
`docker/jupyterhub/jupyterhub_config.py`, `docker/jupyterlab/jupyter_lab_config.py`
and `docker/jupyterlab/jupyter_config/jupyter_server_config.py`.  Each is
evaluated top to bottom at host-application startup and populates a settings
object from literals and environment variables.  We embed the authored logic
shallowly: an environment is a partial map from variable names to strings,
the literal data structures become Lean structures with the same fields, the
environment-derived settings become functions of the environment, the
fallible conversions (`int(...)`, `float(...)`) return `Except`, and the
user-directory bootstrap routine becomes a function on an explicit
filesystem state.  Logging side effects are not modelled.
-/

/-- A process environment: a partial map from variable names to values,
mirroring `os.environ`. -/
def Env : Type := String → Option String

/-- `os.environ.get(key, dflt)`: the value of `key`, or `dflt` when unset. -/
def envGetD (env : Env) (key dflt : String) : String :=
  (env key).getD dflt

/-- Python truthiness of `os.environ.get(key)`: `None` and the empty string
are falsy, every other string is truthy. -/
def pyTruthy (v : Option String) : Bool :=
  match v with
  | none => false
  | some s => !(s == "")

/-- Python `s.lower()`. -/
def pyLower (s : String) : String :=
  String.mk (s.data.map Char.toLower)

/-- A Python exception value, as far as this configuration can raise one:
`ValueError` from `int()`/`float()`, and `OSError`-like failures from the
filesystem calls in the bootstrap routine. -/
inductive PyError where
  | valueError (msg : String)
  | osError (msg : String)
deriving DecidableEq, Repr

/-! ## Python numeral parsing: `int(...)` and `float(...)` on strings

`int(s)` accepts optional surrounding whitespace, an optional sign and a
nonempty decimal digit sequence in which single underscores may separate
digits; anything else raises `ValueError`.  `float(s)` additionally accepts
a fractional part, an exponent part and the special words `inf`, `infinity`
and `nan` (case-insensitive).  We model acceptance and, for `int`, the
decimal value. -/

/-- ASCII whitespace stripped by Python's numeric constructors. -/
def isSpaceChar (ch : Char) : Bool :=
  ch == ' ' || ch == '\t' || ch == '\n' || ch == '\r' || ch == '\x0b' || ch == '\x0c'

/-- Strip leading and trailing whitespace from a character list. -/
def stripWS (cs : List Char) : List Char :=
  ((cs.dropWhile isSpaceChar).reverse.dropWhile isSpaceChar).reverse

/-- Numeric value of a decimal digit character. -/
def digitVal (ch : Char) : Nat := ch.toNat - 48

/-- Consume the longest `digit (underscore? digit)*` run, accumulating its
decimal value; return the value and the unconsumed remainder. -/
def digitsUAux : List Char → Nat → Nat × List Char
  | [], acc => (acc, [])
  | ch :: rest, acc =>
    if ch.isDigit then digitsUAux rest (10 * acc + digitVal ch)
    else if ch == '_' then
      match rest with
      | c2 :: rest2 =>
        if c2.isDigit then digitsUAux rest2 (10 * acc + digitVal c2)
        else (acc, ch :: c2 :: rest2)
      | [] => (acc, [ch])
    else (acc, ch :: rest)

/-- Parse a nonempty digit run (single underscores allowed between digits):
its decimal value and the remainder, or `none` when no leading digit. -/
def parseDigitsU (cs : List Char) : Option (Nat × List Char) :=
  match cs with
  | [] => none
  | ch :: rest => if ch.isDigit then some (digitsUAux rest (digitVal ch)) else none

/-- Parse a complete digit run: the whole input must be consumed. -/
def parseAllDigitsU (cs : List Char) : Option Nat :=
  match parseDigitsU cs with
  | some (n, []) => some n
  | _ => none

/-- Python `int(s)` on a string: the parsed integer, or `none` for the
strings on which `int` raises `ValueError`. -/
def pyInt (s : String) : Option Int :=
  let cs := stripWS s.data
  match cs with
  | '+' :: rest => (parseAllDigitsU rest).map Int.ofNat
  | '-' :: rest => (parseAllDigitsU rest).map (fun n => -(n : Int))
  | _ => (parseAllDigitsU cs).map Int.ofNat

/-- `int(os.environ.get(key, dflt))` where `dflt` is already an `int`
literal: the default when unset, otherwise parse or raise `ValueError`. -/
def pyIntOfEnv (env : Env) (key : String) (dflt : Int) : Except PyError Int :=
  match env key with
  | none => .ok dflt
  | some s =>
    match pyInt s with
    | some n => .ok n
    | none => .error (.valueError s)

/-- The mantissa of a Python float literal: `digits [. [digits]]` or
`. digits`; returns the remainder on success. -/
def floatMantissaRest (cs : List Char) : Option (List Char) :=
  match parseDigitsU cs with
  | some (_, rest) =>
    match rest with
    | '.' :: r2 =>
      match parseDigitsU r2 with
      | some (_, r3) => some r3
      | none => some r2
    | _ => some rest
  | none =>
    match cs with
    | '.' :: r2 => (parseDigitsU r2).map (fun p => p.2)
    | _ => none

/-- The optional exponent of a Python float literal: `(e|E) [sign] digits`;
returns the remainder (the input itself when no exponent marker). -/
def floatExpoRest (cs : List Char) : Option (List Char) :=
  match cs with
  | [] => some []
  | ch :: rest =>
    if ch == 'e' || ch == 'E' then
      let r := match rest with
        | '+' :: r2 => r2
        | '-' :: r2 => r2
        | _ => rest
      (parseDigitsU r).map (fun p => p.2)
    else some (ch :: rest)

/-- The case-insensitive special float words accepted by `float(...)`. -/
def floatSpecialWord (cs : List Char) : Bool :=
  let low := cs.map Char.toLower
  low == "inf".data || low == "infinity".data || low == "nan".data

/-- Python `float(s)` acceptance: `true` exactly when `float(s)` succeeds,
`false` when it raises `ValueError`.  The floating-point value itself is
never consumed by this configuration logic, only parse success. -/
def pyFloatAccepts (s : String) : Bool :=
  let cs := stripWS s.data
  let body := match cs with
    | '+' :: r => r
    | '-' :: r => r
    | _ => cs
  if floatSpecialWord body then true
  else
    match floatMantissaRest body with
    | some rest =>
      match floatExpoRest rest with
      | some [] => true
      | _ => false
    | none => false

/-- `float(os.environ.get(key, dflt))`: validate the chosen string as a
Python float literal, keeping the validated literal (the float value is
never inspected by the configuration), or raise `ValueError`. -/
def pyFloatOfEnv (env : Env) (key dflt : String) : Except PyError String :=
  let s := envGetD env key dflt
  if pyFloatAccepts s then .ok s else .error (.valueError s)

/-! ## jupyterhub_config.py: literal data structures -/

/-- One entry of `c.KubeSpawner.volume_mounts` (lines 51-57). -/
structure VolumeMount where
  name : String
  mountPath : String
  subPath : String
deriving DecidableEq, Repr

/-- The `persistentVolumeClaim` record of a volume (lines 61-63). -/
structure PVCRef where
  claimName : String
deriving DecidableEq, Repr

/-- One entry of `c.KubeSpawner.volumes` (lines 58-65). -/
structure Volume where
  name : String
  persistentVolumeClaim : PVCRef
deriving DecidableEq, Repr

/-- `c.KubeSpawner.pvc_name_template` (line 50). -/
def pvc_name_template : String := "jupyterhub-user-\x7busername\x7d"

/-- `c.KubeSpawner.volume_mounts` (lines 51-57). -/
def volume_mounts : List VolumeMount :=
  [ { name := "home"
    , mountPath := "/home/jovyan"
    , subPath := "home/\x7busername\x7d" } ]

/-- `c.KubeSpawner.volumes` (lines 58-65): the claim name is the value of
`c.KubeSpawner.pvc_name_template`, read back off the config object. -/
def volumes : List Volume :=
  [ { name := "home"
    , persistentVolumeClaim := { claimName := pvc_name_template } } ]

/-- The `kubespawner_override` record of a profile.  The CPU numbers are
written as decimal literals in the source; we carry them as exact rationals
(their float identity is never consumed by authored code). -/
structure KubespawnerOverride where
  image_spec : String
  cpu_limit : ℚ
  mem_limit : String
  cpu_guarantee : ℚ
  mem_guarantee : String
  environment : Option (List (String × String)) := none
deriving DecidableEq, Repr

/-- One entry of `c.KubeSpawner.profile_list`: the `default` key is absent
on all but the first profile, and an absent key is `False` for the purpose
of default selection. -/
structure Profile where
  display_name : String
  description : String
  defaultFlag : Bool := false
  kubespawner_override : KubespawnerOverride
deriving DecidableEq, Repr

/-- `c.KubeSpawner.profile_list` (lines 111-174). -/
def profile_list : List Profile :=
  [ { display_name := "Python 3.11 (Default)"
    , description := "Latest Python with modern libraries"
    , defaultFlag := true
    , kubespawner_override :=
      { image_spec := "kubeadm-python-cluster/jupyterlab:3.11"
      , cpu_limit := 1.0
      , mem_limit := "2G"
      , cpu_guarantee := 0.5
      , mem_guarantee := "1G" } }
  , { display_name := "Python 3.10"
    , description := "Python 3.10 with stable libraries"
    , kubespawner_override :=
      { image_spec := "kubeadm-python-cluster/jupyterlab:3.10"
      , cpu_limit := 1.0
      , mem_limit := "2G"
      , cpu_guarantee := 0.5
      , mem_guarantee := "1G" } }
  , { display_name := "Python 3.9"
    , description := "Python 3.9 with compatible libraries"
    , kubespawner_override :=
      { image_spec := "kubeadm-python-cluster/jupyterlab:3.9"
      , cpu_limit := 1.0
      , mem_limit := "2G"
      , cpu_guarantee := 0.5
      , mem_guarantee := "1G" } }
  , { display_name := "Python 3.8 (Legacy)"
    , description := "Python 3.8 for legacy compatibility"
    , kubespawner_override :=
      { image_spec := "kubeadm-python-cluster/jupyterlab:3.8"
      , cpu_limit := 0.8
      , mem_limit := "1.5G"
      , cpu_guarantee := 0.3
      , mem_guarantee := "0.5G" } }
  , { display_name := "High-Performance Computing"
    , description := "Python 3.11 with extended resources for compute-intensive tasks"
    , kubespawner_override :=
      { image_spec := "kubeadm-python-cluster/jupyterlab:3.11"
      , cpu_limit := 2.0
      , mem_limit := "4G"
      , cpu_guarantee := 1.0
      , mem_guarantee := "2G"
      , environment := some (
        [ ("JUPYTER_ENABLE_LAB", "1")
        , ("GRANT_SUDO", "yes")
        , ("OMP_NUM_THREADS", "2")
        , ("NUMBA_NUM_THREADS", "2") ]) } } ]

/-! ## jupyterhub_config.py: environment-derived settings -/

/-- Python `s.split(',')`: the pieces between commas, empty pieces kept;
the empty string yields one empty piece. -/
def splitCommaAux : List Char → List Char → List String
  | [], acc => [String.mk acc.reverse]
  | c :: rest, acc =>
    if c == ',' then String.mk acc.reverse :: splitCommaAux rest []
    else splitCommaAux rest (c :: acc)

/-- Python `s.split(',')` on a string. -/
def pySplitComma (s : String) : List String :=
  splitCommaAux s.data []

/-- `c.Authenticator.admin_users` (line 27):
`set(os.environ.get('JUPYTERHUB_ADMIN_USERS', 'admin').split(','))`. -/
def admin_users (env : Env) : Finset String :=
  (pySplitComma (envGetD env "JUPYTERHUB_ADMIN_USERS" "admin")).toFinset

/-- The three TLS-related settings of lines 235-238.  A `none` field records
that the configuration file did not assign the setting at all; `ssl_key`
carries an inner `Option` because `os.environ.get('JUPYTERHUB_SSL_KEY')`
may itself be Python `None`. -/
structure HubSSL where
  ssl_cert : Option String
  ssl_key : Option (Option String)
  redirect_to_server : Option Bool
deriving DecidableEq, Repr

/-- Lines 235-238: the TLS block runs only when `JUPYTERHUB_SSL_CERT` is
set to a truthy (non-empty) value. -/
def hubSSL (env : Env) : HubSSL :=
  if pyTruthy (env "JUPYTERHUB_SSL_CERT") then
    { ssl_cert := env "JUPYTERHUB_SSL_CERT"
    , ssl_key := some (env "JUPYTERHUB_SSL_KEY")
    , redirect_to_server := some false }
  else
    { ssl_cert := none, ssl_key := none, redirect_to_server := none }

/-- The environment-derived hub settings, in source order.  Validated float
literals are kept as their source strings. -/
structure HubConfig where
  db_url : String
  admin_users : Finset String
  namespace_ : String
  image_spec : String
  cpu_limit : String
  mem_limit : String
  cpu_guarantee : String
  mem_guarantee : String
  storage_capacity : String
  storage_class : String
  enable_signup : Bool
  profile_list : List Profile
  announcement : String
  ssl : HubSSL
  debugOn : Bool

/-- Top-to-bottom evaluation of `jupyterhub_config.py`'s authored,
environment-dependent logic.  The two `float(...)` calls (lines 44 and 46)
are the only fallible steps; an exception there propagates and aborts the
evaluation, exactly as in the source, which wraps nothing in `try`. -/
def evalHubConfig (env : Env) : Except PyError HubConfig := do
  let dbUrl := envGetD env "JUPYTERHUB_DB_URL" "sqlite:///jupyterhub.sqlite"
  let admins := admin_users env
  let ns := envGetD env "JUPYTERHUB_NAMESPACE" "jupyterhub"
  let image := envGetD env "JUPYTERHUB_SINGLEUSER_IMAGE" "kubeadm-python-cluster/jupyterlab:3.11"
  let cpuLimit ← pyFloatOfEnv env "JUPYTERHUB_CPU_LIMIT" "1.0"
  let memLimit := envGetD env "JUPYTERHUB_MEM_LIMIT" "2G"
  let cpuGuarantee ← pyFloatOfEnv env "JUPYTERHUB_CPU_GUARANTEE" "0.5"
  let memGuarantee := envGetD env "JUPYTERHUB_MEM_GUARANTEE" "1G"
  let storageCap := envGetD env "JUPYTERHUB_STORAGE_CAPACITY" "5Gi"
  let storageClass := envGetD env "JUPYTERHUB_STORAGE_CLASS" "standard"
  let signup := pyLower (envGetD env "JUPYTERHUB_ENABLE_SIGNUP" "True") == "true"
  let ann := envGetD env "JUPYTERHUB_ANNOUNCEMENT" ""
  let ssl := hubSSL env
  let dbg := pyLower (envGetD env "JUPYTERHUB_DEBUG" "False") == "true"
  .ok
    { db_url := dbUrl
    , admin_users := admins
    , namespace_ := ns
    , image_spec := image
    , cpu_limit := cpuLimit
    , mem_limit := memLimit
    , cpu_guarantee := cpuGuarantee
    , mem_guarantee := memGuarantee
    , storage_capacity := storageCap
    , storage_class := storageClass
    , enable_signup := signup
    , profile_list := profile_list
    , announcement := ann
    , ssl := ssl
    , debugOn := dbg }

/-! ## jupyterhub_config.py: the pre-spawn and post-stop hooks

The hooks receive a spawner object; the authored logic reads
`spawner.user.name` and mutates `spawner.environment`, a string dictionary.
The log statements are side effects with no configuration effect and are
not modelled. -/

/-- Lookup in a Python string dictionary (later insertions shadow earlier
bindings). -/
def dictLookup (d : List (String × String)) (k : String) : Option String :=
  match d.find? (fun kv => kv.1 == k) with
  | some kv => some kv.2
  | none => none

/-- `d[k] = v` on a Python string dictionary. -/
def dictInsert (d : List (String × String)) (k v : String) : List (String × String) :=
  (k, v) :: d.filter (fun kv => !(kv.1 == k))

/-- The mutable spawner state the hooks touch: the user's name and the
environment dictionary of the session about to start. -/
structure SpawnerSt where
  username : String
  environment : List (String × String)
deriving DecidableEq, Repr

/-- `pre_spawn_hook` (lines 251-263): when the user is in the admin set the
hook sets `spawner.environment['JUPYTER_ADMIN'] = '1'`; otherwise it leaves
the spawner untouched. -/
def pre_spawn_hook (admins : Finset String) (sp : SpawnerSt) : SpawnerSt :=
  if sp.username ∈ admins then
    { sp with environment := dictInsert sp.environment "JUPYTER_ADMIN" "1" }
  else sp

/-- `post_stop_hook` (lines 265-270): only a log statement; the spawner
state is unchanged. -/
def post_stop_hook (sp : SpawnerSt) : SpawnerSt := sp

/-! ## jupyter_lab_config.py: the user-directory bootstrap routine

`setup_user_environment` works on the filesystem below the user's home
directory.  We model the filesystem as the set of existing directories
(paths as component lists, relative to the home directory) together with an
association list of files. -/

/-- A filesystem path relative to the user's home, as a component list. -/
abbrev FPath := List String

/-- One cell of the sample notebook: its type and its source lines. -/
structure NotebookCell where
  cellType : String
  source : List String
deriving DecidableEq, Repr

/-- The sample-notebook document written by the bootstrap routine: cells
plus the metadata fields the source constructs. -/
structure Notebook where
  cells : List NotebookCell
  kernelDisplayName : String
  languageName : String
  languageVersion : String
  nbformat : Nat
  nbformatMinor : Nat
deriving DecidableEq, Repr

/-- The `welcome_content` document of lines 171-222, as a function of the
environment (Python version) and of the user's home directory string. -/
def welcomeContent (env : Env) (userHome : String) : Notebook :=
  let pv := envGetD env "PYTHON_VERSION" "3.11"
  { cells :=
    [ { cellType := "markdown"
      , source :=
        [ "# Welcome to kubeadm-python-cluster JupyterLab!\n\n"
        , "This is your personal Jupyter environment running on Kubernetes.\n\n"
        , "## Getting Started\n\n"
        , "- This notebook is running Python " ++ pv ++ "\n"
        , "- Your home directory: `" ++ userHome ++ "`\n"
        , "- Available libraries: numpy, pandas, matplotlib, scikit-learn, and many more!\n\n"
        , "## Directories\n\n"
        , "- `notebooks/` - Store your Jupyter notebooks here\n"
        , "- `data/` - Store datasets and data files\n"
        , "- `projects/` - Organize your code projects\n\n"
        , "Happy coding! 🚀" ] }
    , { cellType := "code"
      , source :=
        [ "# Quick environment check\n"
        , "import sys\n"
        , "import numpy as np\n"
        , "import pandas as pd\n"
        , "import matplotlib.pyplot as plt\n"
        , "\n"
        , "print(f\"Python version: \x7bsys.version\x7d\")\n"
        , "print(f\"NumPy version: \x7bnp.__version__\x7d\")\n"
        , "print(f\"Pandas version: \x7bpd.__version__\x7d\")\n"
        , "print(\"\\nEnvironment is ready! 🎉\")" ] } ]
  , kernelDisplayName := "Python " ++ pv
  , languageName := "python"
  , languageVersion := pv
  , nbformat := 4
  , nbformatMinor := 4 }

/-- The filesystem state below the user's home: the set of directories that
exist (kept without duplicates) and the files with their contents. -/
structure FS where
  dirs : List FPath
  files : List (FPath × Notebook)
deriving DecidableEq, Repr

/-- File lookup: `Path.exists` / reading a file. -/
def lookupFile (fs : FS) (p : FPath) : Option Notebook :=
  match fs.files.find? (fun kv => kv.1 == p) with
  | some kv => some kv.2
  | none => none

/-- Writing a file (creating or truncating it). -/
def writeFile (fs : FS) (p : FPath) (nb : Notebook) : FS :=
  { fs with files := (p, nb) :: fs.files.filter (fun kv => !(kv.1 == p)) }

/-- Add a directory if it is not already present. -/
def insertDir (ds : List FPath) (p : FPath) : List FPath :=
  if p ∈ ds then ds else ds ++ [p]

/-- The nonempty prefixes of a path: the ancestors `mkdir(parents=True)`
creates along with the directory itself. -/
def pathPrefixes (p : FPath) : List FPath :=
  (List.range p.length).map (fun i => p.take (i + 1))

/-- `directory.mkdir(parents=True, exist_ok=True)`: create the directory
and its ancestors, succeeding silently on those that already exist. -/
def mkdirParents (fs : FS) (p : FPath) : FS :=
  { fs with dirs := (pathPrefixes p).foldl insertDir fs.dirs }

/-- The four directories of lines 157-162, relative to the user's home. -/
def bootstrapDirs : List FPath :=
  [["notebooks"], ["data"], ["projects"], [".jupyter", "custom"]]

/-- The sample-notebook path `notebooks/Welcome.ipynb` of line 168. -/
def welcomePath : FPath := ["notebooks", "Welcome.ipynb"]

/-- `setup_user_environment` (lines 150-225): create the four directories
(with parents, tolerating existing ones), then write the sample notebook
only when `notebooks/Welcome.ipynb` does not already exist. -/
def setup_user_environment (env : Env) (userHome : String) (fs : FS) : FS :=
  let fs1 := bootstrapDirs.foldl mkdirParents fs
  match lookupFile fs1 welcomePath with
  | some _ => fs1
  | none => writeFile fs1 welcomePath (welcomeContent env userHome)

/-- Failure injection for the fallible steps of `setup_user_environment`.
A directory-creation failure for a path carries the exception and the
number of ancestor directories `mkdir(parents=True)` created before the
raise (those persist past the exception).  A notebook-write failure
carries the exception and whether the raise happened after
`open(sample_notebook, 'w')` created the file — a failure inside
`json.dump` leaves a file behind at the path — or at the `open` itself,
leaving no file.  The file store abstracts file bytes to parsed documents,
so a partially written file is represented by its path holding the
document being written; the authored code only ever consumes such a file's
existence (`sample_notebook.exists()`), never its bytes. -/
structure FailSpec where
  mkdirError : FPath → Option (PyError × Nat)
  writeError : Option (PyError × Bool)

/-- The injection that never fails. -/
def noFail : FailSpec :=
  { mkdirError := fun _ => none, writeError := none }

/-- A fallible `mkdir(parents=True, exist_ok=True)` call.  On failure the
exception carries the filesystem as mutated so far: the ancestors created
before the raise remain. -/
def mkdirParentsE (spec : FailSpec) (fs : FS) (p : FPath) :
    Except (PyError × FS) FS :=
  match spec.mkdirError p with
  | some ek =>
    .error (ek.1,
      { fs with dirs := ((pathPrefixes p).take ek.2).foldl insertDir fs.dirs })
  | none => .ok (mkdirParents fs p)

/-- Fold the fallible `mkdir` over the directory list, stopping at the
first raised exception, as the `for` loop of lines 164-165 does; the
directories created by earlier iterations persist in the error state. -/
def mkdirAllE (spec : FailSpec) (fs : FS) : List FPath → Except (PyError × FS) FS
  | [] => .ok fs
  | p :: ps => do
    let fs' ← mkdirParentsE spec fs p
    mkdirAllE spec fs' ps

/-- `setup_user_environment` with failure injection: any exception raised
by a directory creation or by the sample-notebook write propagates out of
the routine, carrying the filesystem as mutated up to the raise. -/
def setupUserEnvironmentE (spec : FailSpec) (env : Env) (userHome : String)
    (fs : FS) : Except (PyError × FS) FS := do
  let fs1 ← mkdirAllE spec fs bootstrapDirs
  match lookupFile fs1 welcomePath with
  | some _ => .ok fs1
  | none =>
    match spec.writeError with
    | some eb =>
      .error (eb.1,
        if eb.2 then writeFile fs1 welcomePath (welcomeContent env userHome)
        else fs1)
    | none => .ok (writeFile fs1 welcomePath (welcomeContent env userHome))

/-- The message printed by the `except` clause of line 231. -/
def bootstrapWarning (e : PyError) : String :=
  "Warning: Could not set up user environment: " ++
    (match e with
     | .valueError m => m
     | .osError m => m)

/-- The `try`/`except` call site of lines 228-231: on success the new
filesystem state; on any exception the state as mutated up to the raise —
directories created before the failure persist — plus the printed warning.
In both cases evaluation continues normally. -/
def runBootstrap (spec : FailSpec) (env : Env) (userHome : String)
    (fs : FS) : FS × Option String :=
  match setupUserEnvironmentE spec env userHome fs with
  | .ok fs' => (fs', none)
  | .error efs => (efs.2, some (bootstrapWarning efs.1))

/-! ## jupyter_lab_config.py: environment-derived settings -/

/-- `os.path.join` for a relative second component. -/
def pathJoin (a b : String) : String :=
  if a == "" then b
  else if a.data.getLast? == some '/' then a ++ b
  else a ++ "/" ++ b

/-- `c.ServerApp.port` (line 13):
`int(os.environ.get('JUPYTER_PORT', 8888))`; the default is the integer
literal `8888`, used verbatim when the variable is unset. -/
def serverApp_port (env : Env) : Except PyError Int :=
  pyIntOfEnv env "JUPYTER_PORT" 8888

/-- `c.MappingKernelManager.cull_idle_timeout` (line 61):
`int(os.environ.get('JUPYTER_KERNEL_TIMEOUT', 3600))`. -/
def cull_idle_timeout (env : Env) : Except PyError Int :=
  pyIntOfEnv env "JUPYTER_KERNEL_TIMEOUT" 3600

/-- The environment-derived single-user server settings, in source order.
`Option` fields record settings assigned only inside an `if` block. -/
structure LabConfig where
  port : Int
  base_url : String
  token : String
  password : String
  disable_check_xsrf : Option Bool
  root_dir : String
  cull_idle_timeout : Int
  user_settings_dir : String
  workspaces_dir : String
  mem_limit : Int
  log_level : String
  git_dir : String
  default_theme : String
  shutdown_no_activity_timeout : Int
  collaborative : Option Bool
  allow_remote_access : Option Bool
  nbsignatures_db_file : String
deriving DecidableEq, Repr

/-- Top-to-bottom evaluation of `jupyter_lab_config.py`'s authored,
environment-dependent logic (before the bootstrap call of line 229).  The
four `int(...)` calls (lines 13, 61, 84, 117) are the only fallible steps;
an exception there propagates and aborts the evaluation. -/
def evalLabConfig (env : Env) : Except PyError LabConfig := do
  let port ← serverApp_port env
  let baseUrl := envGetD env "JUPYTER_BASE_URL" "/"
  let tok := envGetD env "JUPYTER_TOKEN" ""
  let pw := envGetD env "JUPYTER_PASSWORD" ""
  let xsrf := if pyTruthy (env "JUPYTERHUB_API_TOKEN") then some true else none
  let rootDir := envGetD env "JUPYTER_ROOT_DIR" "/home/jovyan"
  let cull ← cull_idle_timeout env
  let userSettings := pathJoin rootDir ".jupyter/lab/user-settings"
  let workspaces := pathJoin rootDir ".jupyter/lab/workspaces"
  let memLimit ← pyIntOfEnv env "MEM_LIMIT" 2147483648
  let logLevel0 := envGetD env "JUPYTER_LOG_LEVEL" "INFO"
  let theme := envGetD env "JUPYTER_LAB_THEME" "JupyterLab Light"
  let shutdown ← pyIntOfEnv env "JUPYTER_SHUTDOWN_TIMEOUT" 0
  let collab :=
    if pyLower (envGetD env "JUPYTER_ENABLE_COLLABORATION" "false") == "true"
    then some true else none
  let dbg := pyLower (envGetD env "JUPYTER_DEBUG" "false") == "true"
  let logLevel := if dbg then "DEBUG" else logLevel0
  let remote := if dbg then some true else none
  let nbdb := pathJoin rootDir ".jupyter/nbsignatures.db"
  .ok
    { port := port
    , base_url := baseUrl
    , token := tok
    , password := pw
    , disable_check_xsrf := xsrf
    , root_dir := rootDir
    , cull_idle_timeout := cull
    , user_settings_dir := userSettings
    , workspaces_dir := workspaces
    , mem_limit := memLimit
    , log_level := logLevel
    , git_dir := rootDir
    , default_theme := theme
    , shutdown_no_activity_timeout := shutdown
    , collaborative := collab
    , allow_remote_access := remote
    , nbsignatures_db_file := nbdb }

/-- Evaluation of the whole of `jupyter_lab_config.py`: the settings block,
then the guarded bootstrap call of lines 228-231.  The bootstrap's
exceptions are caught at the call site; only a `ValueError` from the
`int(...)` settings aborts the file. -/
def evalLabFile (spec : FailSpec) (env : Env) (userHome : String) (fs : FS) :
    Except PyError (LabConfig × FS × Option String) := do
  let cfg ← evalLabConfig env
  let r := runBootstrap spec env userHome fs
  .ok (cfg, r.1, r.2)

/-! ## Concrete test inputs -/

/-- The empty process environment: every variable unset. -/
def envNone : Env := fun _ => none

/-- An environment that sets only `JUPYTERHUB_ADMIN_USERS`, to a two-name
list. -/
def envAdminPair : Env :=
  fun k => if k = "JUPYTERHUB_ADMIN_USERS" then some "alice,bob" else none

/-- An environment that sets `JUPYTERHUB_ADMIN_USERS` to the empty
string. -/
def envAdminEmptyStr : Env :=
  fun k => if k = "JUPYTERHUB_ADMIN_USERS" then some "" else none

/-- An environment that sets only `JUPYTER_PORT`, to `9999`. -/
def env9999 : Env :=
  fun k => if k = "JUPYTER_PORT" then some "9999" else none

/-- An environment that enables TLS with a certificate path but leaves the
key variable unset. -/
def envSSLOn : Env :=
  fun k => if k = "JUPYTERHUB_SSL_CERT" then some "/etc/ssl/hub.pem" else none

/-- An environment giving every numeric variable an unparseable value. -/
def envBadNums : Env :=
  fun k =>
    if k ∈ ["JUPYTERHUB_CPU_LIMIT", "JUPYTERHUB_CPU_GUARANTEE",
            "JUPYTER_PORT", "JUPYTER_KERNEL_TIMEOUT"]
    then some "abc" else none

/-- The default admin set `set(['admin'])`. -/
def adminSetDefault : Finset String := {"admin"}

/-- A non-admin spawner whose environment already carries the admin flag. -/
def spBob : SpawnerSt :=
  { username := "bob", environment := [("JUPYTER_ADMIN", "1")] }

/-- An admin spawner with an empty environment dictionary. -/
def spAdmin : SpawnerSt :=
  { username := "admin", environment := [] }

/-- The empty filesystem below a fresh home directory. -/
def fsEmpty : FS := { dirs := [], files := [] }

/-- A placeholder notebook with recognizable contents. -/
def nbSample : Notebook :=
  { cells := [{ cellType := "markdown", source := ["user content"] }]
  , kernelDisplayName := "Python 3.11"
  , languageName := "python"
  , languageVersion := "3.11"
  , nbformat := 4
  , nbformatMinor := 4 }

/-- A filesystem on which the sample notebook already exists. -/
def fsWithWelcome : FS :=
  { dirs := [], files := [(welcomePath, nbSample)] }

/-- A failure injection whose `.jupyter/custom` creation raises after the
`.jupyter` ancestor was already created, the three earlier loop iterations
having succeeded. -/
def failSpec1 : FailSpec :=
  { mkdirError := fun p =>
      if p = [".jupyter", "custom"] then some (.osError "disk full", 1) else none
  , writeError := none }

/-- The partially bootstrapped filesystem `failSpec1` leaves behind on an
empty home: the three first directories and the `.jupyter` ancestor exist,
and the sample notebook was never written. -/
def fsPartial : FS :=
  { dirs := [["notebooks"], ["data"], ["projects"], [".jupyter"]], files := [] }

/-- The single-user settings produced by the empty environment. -/
def labDefaults : LabConfig :=
  { port := 8888
  , base_url := "/"
  , token := ""
  , password := ""
  , disable_check_xsrf := none
  , root_dir := "/home/jovyan"
  , cull_idle_timeout := 3600
  , user_settings_dir := "/home/jovyan/.jupyter/lab/user-settings"
  , workspaces_dir := "/home/jovyan/.jupyter/lab/workspaces"
  , mem_limit := 2147483648
  , log_level := "INFO"
  , git_dir := "/home/jovyan"
  , default_theme := "JupyterLab Light"
  , shutdown_no_activity_timeout := 0
  , collaborative := none
  , allow_remote_access := none
  , nbsignatures_db_file := "/home/jovyan/.jupyter/nbsignatures.db" }

/-- The decimal value of a digit string. -/
def decNatVal (ds : List Char) : Nat :=
  ds.foldl (fun a ch => 10 * a + digitVal ch) 0

/-! ## Shared lemmas -/

/-- Looking up the key just inserted into a Python dictionary yields the
inserted value. -/
theorem dictLookup_dictInsert_self (d : List (String × String)) (k v : String) :
    dictLookup (dictInsert d k v) k = some v := by
  simp [dictLookup, dictInsert]

/-! ## The claims -/

/-- Claim C1: the literal profile list holds exactly five profiles, the
sole `default=True` entry is `Python 3.11 (Default)`, and the five display
names are pairwise distinct. -/
theorem claim_C1_profiles :
    profile_list.length = 5 ∧
    (profile_list.filter (fun p => p.defaultFlag)).map (fun p => p.display_name) =
      ["Python 3.11 (Default)"] ∧
    (profile_list.map (fun p => p.display_name)).Nodup := by
  decide

/-- Claim C8: exactly one volume, named `home`, whose claim name is the
per-user template `jupyterhub-user-{username}` (the value of
`pvc_name_template`), and exactly one mount, with the matching name `home`
and mount path `/home/jovyan`. -/
theorem claim_C8_volumes :
    volumes.length = 1 ∧
    volume_mounts.length = 1 ∧
    volumes.map Volume.name = ["home"] ∧
    volumes.map (fun v => v.persistentVolumeClaim.claimName) = [pvc_name_template] ∧
    pvc_name_template = "jupyterhub-user-\x7busername\x7d" ∧
    volume_mounts.map VolumeMount.name = volumes.map Volume.name ∧
    volume_mounts.map VolumeMount.mountPath = ["/home/jovyan"] := by
  decide

/-- Claim C6: the effective admin set is the set of comma-separated pieces
of `JUPYTERHUB_ADMIN_USERS`, and the one-element set containing `admin`
when the variable is unset. -/
theorem claim_C6_admin_users :
    (∀ (env : Env) (s : String), env "JUPYTERHUB_ADMIN_USERS" = some s →
      ∀ u, u ∈ admin_users env ↔ u ∈ pySplitComma s) ∧
    (∀ env : Env, env "JUPYTERHUB_ADMIN_USERS" = none →
      admin_users env = {"admin"}) := by
  constructor
  · intro env s h u
    simp [admin_users, envGetD, h]
  · intro env h
    have hv : admin_users env = (pySplitComma "admin").toFinset := by
      simp [admin_users, envGetD, h]
    rw [hv]
    decide

/-- Witness for claim C6 at `JUPYTERHUB_ADMIN_USERS=alice,bob` and at the
empty environment. -/
theorem claim_C6_witness :
    ("alice" ∈ admin_users envAdminPair ↔ "alice" ∈ pySplitComma "alice,bob") ∧
    admin_users envNone = {"admin"} :=
  ⟨claim_C6_admin_users.1 envAdminPair "alice,bob" rfl "alice",
   claim_C6_admin_users.2 envNone rfl⟩

/-- Claim C10: setting `JUPYTERHUB_ADMIN_USERS` to the empty string yields
the one-element admin set containing the empty username — not the empty
set and not the default set — while the default `admin` applies to the
fully unset environment. -/
theorem claim_C10_empty_admin :
    admin_users envAdminEmptyStr = {""} ∧
    admin_users envAdminEmptyStr ≠ (∅ : Finset String) ∧
    admin_users envAdminEmptyStr ≠ {"admin"} ∧
    admin_users envNone = {"admin"} := by
  decide

/-- Claim C7: the TLS block assigns `ssl_cert`, `ssl_key` and
`redirect_to_server := False` exactly when `JUPYTERHUB_SSL_CERT` is set
non-empty, and assigns none of the three otherwise. -/
theorem claim_C7_ssl :
    (∀ (env : Env) (s : String), env "JUPYTERHUB_SSL_CERT" = some s → s ≠ "" →
      hubSSL env = { ssl_cert := some s
                   , ssl_key := some (env "JUPYTERHUB_SSL_KEY")
                   , redirect_to_server := some false }) ∧
    (∀ env : Env,
      env "JUPYTERHUB_SSL_CERT" = none ∨ env "JUPYTERHUB_SSL_CERT" = some "" →
      hubSSL env = { ssl_cert := none, ssl_key := none, redirect_to_server := none }) := by
  constructor
  · intro env s h hne
    simp [hubSSL, pyTruthy, h, hne]
  · intro env h
    rcases h with h | h <;> simp [hubSSL, pyTruthy, h]

/-- Witness for claim C7: a certificate-bearing environment and the empty
environment. -/
theorem claim_C7_witness :
    hubSSL envSSLOn = { ssl_cert := some "/etc/ssl/hub.pem"
                      , ssl_key := some none
                      , redirect_to_server := some false } ∧
    hubSSL envNone = { ssl_cert := none, ssl_key := none, redirect_to_server := none } := by
  constructor
  · have h := claim_C7_ssl.1 envSSLOn "/etc/ssl/hub.pem" rfl (by decide)
    simpa using h
  · exact claim_C7_ssl.2 envNone (Or.inl rfl)

/-- Claim C3, counterexample: a non-admin spawner whose environment already
carries `JUPYTER_ADMIN` still carries it after the hook, so the claim's
"contains no JUPYTER_ADMIN key" clause fails as stated. -/
theorem claim_C3_counterexample :
    "bob" ∉ adminSetDefault ∧
    dictLookup (pre_spawn_hook adminSetDefault spBob).environment "JUPYTER_ADMIN" =
      some "1" := by
  decide

/-- Claim C3, amended: an admin user ends up with `JUPYTER_ADMIN = '1'`;
for a non-admin user the hook leaves the spawner unchanged — in particular
it adds no `JUPYTER_ADMIN` key, but neither does it remove one already
present. -/
theorem claim_C3_amended :
    ∀ (admins : Finset String) (sp : SpawnerSt),
      (sp.username ∈ admins →
        dictLookup (pre_spawn_hook admins sp).environment "JUPYTER_ADMIN" = some "1") ∧
      (sp.username ∉ admins → pre_spawn_hook admins sp = sp) := by
  intro admins sp
  constructor
  · intro h
    simp [pre_spawn_hook, h, dictLookup_dictInsert_self]
  · intro h
    simp [pre_spawn_hook, h]

/-- Witness for claim C3's amended statement: the admin user gains the
flag; the non-admin spawner is returned unchanged. -/
theorem claim_C3_witness :
    dictLookup (pre_spawn_hook adminSetDefault spAdmin).environment "JUPYTER_ADMIN" =
      some "1" ∧
    pre_spawn_hook adminSetDefault spBob = spBob :=
  ⟨(claim_C3_amended adminSetDefault spAdmin).1 (by decide),
   (claim_C3_amended adminSetDefault spBob).2 (by decide)⟩

/-! ## Shared lemmas about the `Except` evaluation chains -/

/-- Sequencing after a successful step applies the continuation. -/
@[simp] theorem except_bind_ok {ε : Type u} {α β : Type v} (a : α)
    (f : α → Except ε β) : (Except.ok a >>= f) = f a := rfl

/-- A raised exception propagates past the rest of the file. -/
@[simp] theorem except_bind_error {ε : Type u} {α β : Type v} (e : ε)
    (f : α → Except ε β) :
    ((Except.error e : Except ε α) >>= f) = Except.error e := rfl

/-- The only exception `float(...)` raises here is a `ValueError` carrying
the offending string. -/
theorem pyFloatOfEnv_error {env : Env} {k d : String} {e : PyError}
    (h : pyFloatOfEnv env k d = .error e) : e = .valueError (envGetD env k d) := by
  by_cases hacc : pyFloatAccepts (envGetD env k d) = true
  · simp [pyFloatOfEnv, hacc] at h
  · simp [pyFloatOfEnv, hacc] at h
    exact h.symm

/-- The only exception `int(...)` raises here is a `ValueError`. -/
theorem pyIntOfEnv_error {env : Env} {k : String} {d : Int} {e : PyError}
    (h : pyIntOfEnv env k d = .error e) : ∃ m, e = .valueError m := by
  unfold pyIntOfEnv at h
  split at h
  · exact absurd h (by simp)
  · split at h
    · exact absurd h (by simp)
    · simp only [Except.error.injEq] at h
      exact ⟨_, h.symm⟩

/-- Claim C4: every exception raised inside `setup_user_environment` is
caught at the call site; the file evaluation completes normally with the
warning printed, rather than propagating the exception.  The filesystem
ends in the state the routine had mutated it to by the raise — directories
created before the failure persist past the `except`. -/
theorem claim_C4_catch :
    ∀ (spec : FailSpec) (env : Env) (home : String) (fs : FS) (e : PyError)
      (fsMid : FS) (cfg : LabConfig),
      evalLabConfig env = .ok cfg →
      setupUserEnvironmentE spec env home fs = .error (e, fsMid) →
      evalLabFile spec env home fs = .ok (cfg, fsMid, some (bootstrapWarning e)) := by
  intro spec env home fs e fsMid cfg hcfg herr
  simp [evalLabFile, hcfg, runBootstrap, herr]

/-- Witness for claim C4: a fourth-directory `mkdir` failure on the empty
environment yields the warning, leaves the settings intact, and keeps the
three directories and the `.jupyter` ancestor created before the raise. -/
theorem claim_C4_witness :
    evalLabFile failSpec1 envNone "/home/jovyan" fsEmpty =
      .ok (labDefaults, fsPartial, some (bootstrapWarning (.osError "disk full"))) :=
  claim_C4_catch failSpec1 envNone "/home/jovyan" fsEmpty (.osError "disk full")
    fsPartial labDefaults (by rfl) (by rfl)

/-- Claim C9: the numeric environment conversions are unguarded — an
unparseable `JUPYTERHUB_CPU_LIMIT` or `JUPYTERHUB_CPU_GUARANTEE` makes the
hub file evaluation raise `ValueError`, and an unparseable `JUPYTER_PORT`
or `JUPYTER_KERNEL_TIMEOUT` makes the lab file evaluation raise
`ValueError`; there is no fallback to the documented defaults. -/
theorem claim_C9_unguarded :
    (∀ (env : Env) (s : String), env "JUPYTERHUB_CPU_LIMIT" = some s →
      pyFloatAccepts s = false → evalHubConfig env = .error (.valueError s)) ∧
    (∀ (env : Env) (s : String), env "JUPYTERHUB_CPU_GUARANTEE" = some s →
      pyFloatAccepts s = false →
      ∃ msg, evalHubConfig env = .error (.valueError msg)) ∧
    (∀ (env : Env) (s : String), env "JUPYTER_PORT" = some s →
      pyInt s = none → evalLabConfig env = .error (.valueError s)) ∧
    (∀ (env : Env) (s : String), env "JUPYTER_KERNEL_TIMEOUT" = some s →
      pyInt s = none →
      ∃ msg, evalLabConfig env = .error (.valueError msg)) := by
  refine ⟨?_, ?_, ?_, ?_⟩
  · intro env s h hfail
    have hcl : pyFloatOfEnv env "JUPYTERHUB_CPU_LIMIT" "1.0" = .error (.valueError s) := by
      simp [pyFloatOfEnv, envGetD, h, hfail]
    simp [evalHubConfig, hcl]
  · intro env s h hfail
    have hguar : pyFloatOfEnv env "JUPYTERHUB_CPU_GUARANTEE" "0.5" =
        .error (.valueError s) := by
      simp [pyFloatOfEnv, envGetD, h, hfail]
    rcases hcl : pyFloatOfEnv env "JUPYTERHUB_CPU_LIMIT" "1.0" with e | v
    · obtain rfl := pyFloatOfEnv_error hcl
      exact ⟨envGetD env "JUPYTERHUB_CPU_LIMIT" "1.0", by simp [evalHubConfig, hcl]⟩
    · exact ⟨s, by simp [evalHubConfig, hcl, hguar]⟩
  · intro env s h hfail
    have hp : serverApp_port env = .error (.valueError s) := by
      simp [serverApp_port, pyIntOfEnv, h, hfail]
    simp [evalLabConfig, hp]
  · intro env s h hfail
    have hct : cull_idle_timeout env = .error (.valueError s) := by
      simp [cull_idle_timeout, pyIntOfEnv, h, hfail]
    rcases hp : serverApp_port env with e | v
    · obtain ⟨m, rfl⟩ := pyIntOfEnv_error hp
      exact ⟨m, by simp [evalLabConfig, hp]⟩
    · exact ⟨s, by simp [evalLabConfig, hp, hct]⟩

/-- Witness for claim C9: with every numeric variable set to `abc`, both
file evaluations abort with `ValueError`. -/
theorem claim_C9_witness :
    evalHubConfig envBadNums = .error (.valueError "abc") ∧
    (∃ m, evalHubConfig envBadNums = .error (.valueError m)) ∧
    evalLabConfig envBadNums = .error (.valueError "abc") ∧
    (∃ m, evalLabConfig envBadNums = .error (.valueError m)) :=
  ⟨claim_C9_unguarded.1 envBadNums "abc" rfl (by decide),
   claim_C9_unguarded.2.1 envBadNums "abc" rfl (by decide),
   claim_C9_unguarded.2.2.1 envBadNums "abc" rfl (by decide),
   claim_C9_unguarded.2.2.2 envBadNums "abc" rfl (by decide)⟩

/-! ## Decimal digit strings and `int(...)` -/

/-- A digit character is not whitespace. -/
theorem not_space_of_digit {c : Char} (h : c.isDigit = true) :
    isSpaceChar c = false := by
  cases hsp : isSpaceChar c with
  | false => rfl
  | true =>
    exfalso
    have hmem : c ∈ [' ', '\t', '\n', '\r', '\x0b', '\x0c'] := by
      simp [isSpaceChar] at hsp
      simp
      tauto
    fin_cases hmem <;> exact absurd h (by decide)

/-- `dropWhile` is the identity when the predicate fails everywhere. -/
theorem dropWhile_eq_self_of_all {α : Type} (p : α → Bool) (l : List α)
    (h : ∀ c ∈ l, p c = false) : l.dropWhile p = l := by
  cases l with
  | nil => rfl
  | cons a t => simp [List.dropWhile_cons, h a (List.mem_cons_self a t)]

/-- Stripping whitespace from an all-digit string changes nothing. -/
theorem stripWS_eq_self {cs : List Char} (h : ∀ c ∈ cs, isSpaceChar c = false) :
    stripWS cs = cs := by
  have hrev : ∀ c ∈ cs.reverse, isSpaceChar c = false := fun c hc =>
    h c (List.mem_reverse.mp hc)
  unfold stripWS
  rw [dropWhile_eq_self_of_all _ _ h, dropWhile_eq_self_of_all _ _ hrev,
    List.reverse_reverse]

/-- On an all-digit tail the accumulator run consumes everything and folds
up the decimal value. -/
theorem digitsUAux_all_digits :
    ∀ (cs : List Char) (acc : Nat), (∀ c ∈ cs, c.isDigit = true) →
      digitsUAux cs acc = (cs.foldl (fun a ch => 10 * a + digitVal ch) acc, []) := by
  intro cs
  induction cs with
  | nil =>
    intro acc _
    simp [digitsUAux]
  | cons c t ih =>
    intro acc h
    have hc : c.isDigit = true := h c (List.mem_cons_self c t)
    rw [digitsUAux.eq_def]
    simp only [hc, if_true, List.foldl_cons]
    exact ih _ (fun x hx => h x (List.mem_cons_of_mem c hx))

/-- Python `int` on a nonempty decimal-digit string returns its value. -/
theorem pyInt_all_digits {ds : List Char} (hne : ds ≠ [])
    (h : ∀ c ∈ ds, c.isDigit = true) :
    pyInt (String.mk ds) = some (Int.ofNat (decNatVal ds)) := by
  obtain ⟨d, t, rfl⟩ := List.exists_cons_of_ne_nil hne
  have hd : d.isDigit = true := h d (List.mem_cons_self d t)
  have hstrip : stripWS (String.mk (d :: t)).data = d :: t :=
    stripWS_eq_self (fun c hc => not_space_of_digit (h c hc))
  simp only [pyInt, hstrip]
  split
  · rename_i rest heq
    exfalso
    have : d = '+' := (List.cons.injEq _ _ _ _ ▸ heq).1
    subst this
    exact absurd hd (by decide)
  · rename_i rest heq
    exfalso
    have : d = '-' := (List.cons.injEq _ _ _ _ ▸ heq).1
    subst this
    exact absurd hd (by decide)
  · have ht : ∀ c ∈ t, c.isDigit = true := fun c hc => h c (List.mem_cons_of_mem d hc)
    simp [parseAllDigitsU, parseDigitsU, hd, digitsUAux_all_digits t (digitVal d) ht,
      decNatVal, List.foldl_cons]

/-- Claim C5: with `JUPYTER_PORT` unset the effective server port is 8888;
with `JUPYTER_PORT` a decimal numeral the effective port is that numeral's
value. -/
theorem claim_C5_port :
    (∀ env : Env, env "JUPYTER_PORT" = none → serverApp_port env = .ok 8888) ∧
    (∀ (env : Env) (ds : List Char), ds ≠ [] → (∀ c ∈ ds, c.isDigit = true) →
      env "JUPYTER_PORT" = some (String.mk ds) →
      serverApp_port env = .ok (Int.ofNat (decNatVal ds))) := by
  constructor
  · intro env h
    simp [serverApp_port, pyIntOfEnv, h]
  · intro env ds hne hdig h
    simp [serverApp_port, pyIntOfEnv, h, pyInt_all_digits hne hdig]

/-- Witness for claim C5: the empty environment and `JUPYTER_PORT=9999`. -/
theorem claim_C5_witness :
    serverApp_port envNone = .ok 8888 ∧ serverApp_port env9999 = .ok 9999 := by
  refine ⟨claim_C5_port.1 envNone rfl, ?_⟩
  have h := claim_C5_port.2 env9999 ("9999".data) (by decide) (by decide) rfl
  rw [h]
  rfl

/-! ## The bootstrap routine: directory-set lemmas -/

/-- `insertDir` keeps every existing directory. -/
theorem insertDir_mem_of_mem {ds : List FPath} {q : FPath} (h : q ∈ ds)
    (p : FPath) : q ∈ insertDir ds p := by
  unfold insertDir
  split
  · exact h
  · exact List.mem_append_left _ h

/-- `insertDir` makes its argument present. -/
theorem mem_insertDir_self (ds : List FPath) (p : FPath) : p ∈ insertDir ds p := by
  unfold insertDir
  split
  · assumption
  · exact List.mem_append_right _ (List.mem_singleton.mpr rfl)

/-- Creating an already-existing directory changes nothing. -/
theorem insertDir_eq_of_mem {ds : List FPath} {p : FPath} (h : p ∈ ds) :
    insertDir ds p = ds := by
  unfold insertDir
  simp [h]

/-- A directory survives any sequence of `insertDir` calls. -/
theorem mem_foldl_insertDir_of_mem {ds : List FPath} {q : FPath} (h : q ∈ ds) :
    ∀ l : List FPath, q ∈ l.foldl insertDir ds := by
  intro l
  induction l generalizing ds with
  | nil => exact h
  | cons a t ih => exact ih (insertDir_mem_of_mem h a)

/-- Every directory of the created list is present afterwards. -/
theorem mem_foldl_insertDir_of_mem_list {l : List FPath} {p : FPath} (h : p ∈ l)
    (ds : List FPath) : p ∈ l.foldl insertDir ds := by
  induction l generalizing ds with
  | nil => cases h
  | cons a t ih =>
    rcases List.mem_cons.mp h with rfl | h'
    · exact mem_foldl_insertDir_of_mem (mem_insertDir_self ds p) t
    · exact ih h' _

/-- Creating directories that all exist already changes nothing. -/
theorem foldl_insertDir_eq_of_all_mem {l ds : List FPath}
    (h : ∀ p ∈ l, p ∈ ds) : l.foldl insertDir ds = ds := by
  induction l with
  | nil => rfl
  | cons a t ih =>
    rw [List.foldl_cons, insertDir_eq_of_mem (h a (List.mem_cons_self a t))]
    exact ih (fun p hp => h p (List.mem_cons_of_mem a hp))

/-- A directory survives the whole `mkdir` loop at the dirs level. -/
theorem mem_mkdirLoop_of_mem {ds : List FPath} {q : FPath} (h : q ∈ ds) :
    ∀ l : List FPath,
      q ∈ l.foldl (fun ds p => (pathPrefixes p).foldl insertDir ds) ds := by
  intro l
  induction l generalizing ds with
  | nil => exact h
  | cons a t ih => exact ih (mem_foldl_insertDir_of_mem h (pathPrefixes a))

/-- After the `mkdir` loop every prefix of every listed path exists. -/
theorem mem_mkdirLoop_of_prefix {l : List FPath} {p : FPath} (hp : p ∈ l)
    {q : FPath} (hq : q ∈ pathPrefixes p) (ds : List FPath) :
    q ∈ l.foldl (fun ds p => (pathPrefixes p).foldl insertDir ds) ds := by
  induction l generalizing ds with
  | nil => cases hp
  | cons a t ih =>
    rcases List.mem_cons.mp hp with rfl | h'
    · exact mem_mkdirLoop_of_mem (mem_foldl_insertDir_of_mem_list hq ds) t
    · exact ih h' _

/-- The `mkdir` loop changes nothing when every prefix already exists. -/
theorem mkdirLoop_eq_of_all_mem {l : List FPath} {ds : List FPath}
    (h : ∀ p ∈ l, ∀ q ∈ pathPrefixes p, q ∈ ds) :
    l.foldl (fun ds p => (pathPrefixes p).foldl insertDir ds) ds = ds := by
  induction l with
  | nil => rfl
  | cons a t ih =>
    rw [List.foldl_cons,
      foldl_insertDir_eq_of_all_mem (h a (List.mem_cons_self a t))]
    exact ih (fun p hp => h p (List.mem_cons_of_mem a hp))

/-- The `mkdir` loop is idempotent on the directory set. -/
theorem mkdirLoop_idem (l : List FPath) (ds : List FPath) :
    l.foldl (fun ds p => (pathPrefixes p).foldl insertDir ds)
      (l.foldl (fun ds p => (pathPrefixes p).foldl insertDir ds) ds) =
    l.foldl (fun ds p => (pathPrefixes p).foldl insertDir ds) ds :=
  mkdirLoop_eq_of_all_mem (fun _ hp _ hq => mem_mkdirLoop_of_prefix hp hq ds)

/-- The directory field after folding `mkdirParents` is the dirs-level
`mkdir` loop. -/
theorem foldl_mkdirParents_dirs (l : List FPath) (fs : FS) :
    (l.foldl mkdirParents fs).dirs =
      l.foldl (fun ds p => (pathPrefixes p).foldl insertDir ds) fs.dirs := by
  induction l generalizing fs with
  | nil => rfl
  | cons a t ih =>
    rw [List.foldl_cons, List.foldl_cons, ih]
    rfl

/-- Folding `mkdirParents` never touches the files. -/
theorem foldl_mkdirParents_files (l : List FPath) (fs : FS) :
    (l.foldl mkdirParents fs).files = fs.files := by
  induction l generalizing fs with
  | nil => rfl
  | cons a t ih =>
    rw [List.foldl_cons, ih]
    rfl

/-- File lookup only depends on the files field. -/
theorem lookupFile_eq_of_files_eq {a b : FS} (h : a.files = b.files)
    (p : FPath) : lookupFile a p = lookupFile b p := by
  unfold lookupFile
  rw [h]

/-- Reading back a freshly written file yields its contents. -/
theorem lookupFile_writeFile_self (fs : FS) (p : FPath) (nb : Notebook) :
    lookupFile (writeFile fs p nb) p = some nb := by
  simp [lookupFile, writeFile]

/-- Two filesystem states with the same directories and files are equal. -/
theorem FS.ext' {a b : FS} (hd : a.dirs = b.dirs) (hf : a.files = b.files) :
    a = b := by
  cases a
  cases b
  simp_all

/-- Claim C2: the bootstrap routine is idempotent — a second run changes
nothing (in particular the directory set is the same), and an existing
sample notebook is never overwritten. -/
theorem claim_C2_idempotent :
    ∀ (env : Env) (home : String) (fs : FS),
      setup_user_environment env home (setup_user_environment env home fs) =
        setup_user_environment env home fs ∧
      (∀ nb, lookupFile fs welcomePath = some nb →
        lookupFile (setup_user_environment env home fs) welcomePath = some nb) := by
  intro env home fs
  have hfiles1 : (bootstrapDirs.foldl mkdirParents fs).files = fs.files :=
    foldl_mkdirParents_files _ _
  have hlk1 : lookupFile (bootstrapDirs.foldl mkdirParents fs) welcomePath =
      lookupFile fs welcomePath := lookupFile_eq_of_files_eq hfiles1 _
  cases hlk : lookupFile (bootstrapDirs.foldl mkdirParents fs) welcomePath with
  | some nb0 =>
    have hsetup : setup_user_environment env home fs =
        bootstrapDirs.foldl mkdirParents fs := by
      simp only [setup_user_environment, hlk]
    have hfiles2 :
        (bootstrapDirs.foldl mkdirParents (bootstrapDirs.foldl mkdirParents fs)).files =
          (bootstrapDirs.foldl mkdirParents fs).files :=
      foldl_mkdirParents_files _ _
    have hlk2 : lookupFile
        (bootstrapDirs.foldl mkdirParents (bootstrapDirs.foldl mkdirParents fs))
        welcomePath = some nb0 := by
      rw [lookupFile_eq_of_files_eq hfiles2, hlk]
    constructor
    · rw [hsetup]
      simp only [setup_user_environment, hlk2]
      apply FS.ext'
      · rw [foldl_mkdirParents_dirs bootstrapDirs (bootstrapDirs.foldl mkdirParents fs),
          foldl_mkdirParents_dirs bootstrapDirs fs]
        exact mkdirLoop_idem _ _
      · exact hfiles2
    · intro nb hnb
      rw [hsetup, hlk1]
      exact hnb
  | none =>
    have hsetup : setup_user_environment env home fs =
        writeFile (bootstrapDirs.foldl mkdirParents fs) welcomePath
          (welcomeContent env home) := by
      simp only [setup_user_environment, hlk]
    constructor
    · rw [hsetup]
      have hfilesW :
          (bootstrapDirs.foldl mkdirParents
            (writeFile (bootstrapDirs.foldl mkdirParents fs) welcomePath
              (welcomeContent env home))).files =
          (writeFile (bootstrapDirs.foldl mkdirParents fs) welcomePath
            (welcomeContent env home)).files :=
        foldl_mkdirParents_files _ _
      have hlkW : lookupFile
          (bootstrapDirs.foldl mkdirParents
            (writeFile (bootstrapDirs.foldl mkdirParents fs) welcomePath
              (welcomeContent env home))) welcomePath =
          some (welcomeContent env home) := by
        rw [lookupFile_eq_of_files_eq hfilesW]
        exact lookupFile_writeFile_self _ _ _
      simp only [setup_user_environment, hlkW]
      apply FS.ext'
      · rw [foldl_mkdirParents_dirs]
        have hw : (writeFile (bootstrapDirs.foldl mkdirParents fs) welcomePath
            (welcomeContent env home)).dirs =
            (bootstrapDirs.foldl mkdirParents fs).dirs := rfl
        rw [hw, foldl_mkdirParents_dirs]
        exact mkdirLoop_idem _ _
      · exact hfilesW
    · intro nb hnb
      rw [hlk1] at hlk
      rw [hlk] at hnb
      cases hnb

/-- Witness for claim C2 on a filesystem that already holds a sample
notebook with user contents. -/
theorem claim_C2_witness :
    setup_user_environment envNone "/home/jovyan"
        (setup_user_environment envNone "/home/jovyan" fsWithWelcome) =
      setup_user_environment envNone "/home/jovyan" fsWithWelcome ∧
    lookupFile (setup_user_environment envNone "/home/jovyan" fsWithWelcome)
        welcomePath = some nbSample :=
  ⟨(claim_C2_idempotent envNone "/home/jovyan" fsWithWelcome).1,
   (claim_C2_idempotent envNone "/home/jovyan" fsWithWelcome).2 nbSample (by decide)⟩
